import Mathlib

/-!
Verification development for the mqttshell repository: an agent that tunnels a
PTY shell session over an MQTT broker, and a terminal controller client.
Definitions below are shallow embeddings of the Rust sources
src/agent/src/main.rs and src/controller/src/main.rs.
-/

/- ### Resize message codec (agent side)

The agent deserializes resize payloads with
serde_json from_slice into TerminalResize with fields rows and cols of type
u16 (src/agent/src/main.rs lines 25-29 and 260-279).  A JSON payload is
modelled by the two relevant field slots: a field is either absent (or not an
integer), modelled as none, or present with an integer value.  serde rejects a
missing field, a negative integer and an integer above the u16 maximum; a zero
value is a valid u16 and is accepted. -/

structure TerminalResize where
  rows : Nat
  cols : Nat
deriving DecidableEq, Repr

/-- serde_json deserialization of the TerminalResize struct from a JSON object
whose rows and cols fields are given as optional integers. -/
def parseResize (rowsField colsField : Option Int) : Option TerminalResize :=
  match rowsField, colsField with
  | some r, some c =>
    if 0 ≤ r ∧ r ≤ 65535 ∧ 0 ≤ c ∧ c ≤ 65535 then
      some ⟨r.toNat, c.toNat⟩
    else none
  | _, _ => none

/-- The PtySize struct of the portable_pty crate, as used by the agent. -/
structure PtySize where
  rows : Nat
  cols : Nat
  pixel_width : Nat
  pixel_height : Nat
deriving DecidableEq, Repr

/-- Result of the agent handling one publish on the resize topic
(src/agent/src/main.rs lines 260-279).  The handler either leaves the PTY
unchanged (payload failed to deserialize), applies the resize, or panics via
expect when the OS resize call fails. -/
inductive ResizeOutcome where
  | ignored (size : PtySize)
  | resized (size : PtySize)
  | panicked
deriving DecidableEq, Repr

/-- The agent handler for one resize-topic payload.  `cur` is the current PTY
size, `osOk` tells whether the OS resize call succeeds.  The second component
is the list of status tokens emitted on this path: the source sends none in
either branch. -/
def handleResizePayload (cur : PtySize) (rowsField colsField : Option Int)
    (osOk : Bool) : ResizeOutcome × List String :=
  match parseResize rowsField colsField with
  | none => (.ignored cur, [])
  | some rd =>
    if osOk then
      (.resized { rows := rd.rows, cols := rd.cols, pixel_width := 0, pixel_height := 0 }, [])
    else (.panicked, [])

/- ### Agent transport loop backoff (src/agent/src/main.rs lines 172-299)

One trip around the outer reconnect loop either fails a subscribe (short
circuit to the backoff sleep) or subscribes successfully, resets the delay to
1, and later breaks out of the inner event loop on a transport error, after
which the same backoff sleep runs.  In both cases the sleep uses the current
delay and the delay is then doubled with cap 30. -/

inductive AttemptResult where
  | subFail
  | connected
deriving DecidableEq, Repr

/-- One iteration of the outer reconnect loop: returns the delay slept at the
end of this iteration and the delay value carried into the next iteration. -/
def connectStep (delay : Nat) (r : AttemptResult) : Nat × Nat :=
  match r with
  | .subFail => (delay, min (delay * 2) 30)
  | .connected =>
    let d := 1
    (d, min (d * 2) 30)

/-- The sleep delays produced by a sequence of connection attempts, starting
from the given current delay. -/
def delaysFrom (delay : Nat) : List AttemptResult → List Nat
  | [] => []
  | r :: rs =>
    let p := connectStep delay r
    p.1 :: delaysFrom p.2 rs

/- ### Controller transport behavior (src/controller/src/main.rs)

The controller subscribes once with unwrap: a subscribe failure panics the
process (lines 48-49).  Its event loop reacts to a transport error with a
fixed one-second sleep and keeps polling; there is no backoff state and no
resubscription (lines 107-110). -/

inductive ControllerStartup where
  | started
  | panicked
deriving DecidableEq, Repr

/-- The controller startup subscribes to the out and status topics with
unwrap. -/
def controllerSubscribe (outOk statusOk : Bool) : ControllerStartup :=
  if outOk then
    if statusOk then .started else .panicked
  else .panicked

/-- Fixed sleep applied by the controller event loop on a transport error. -/
def controllerErrorDelay : Nat := 1

/-- Delays slept by the controller across a run of consecutive transport
errors. -/
def controllerDelays (errs : Nat) : List Nat :=
  List.replicate errs controllerErrorDelay

/- ### Output fan-out and the out-topic publish task (agent)

The agent sends every PTY output frame into a tokio broadcast channel of
capacity 1000 with drop-oldest overflow (src/agent/src/main.rs line 44).  For
each connection the transport loop subscribes a receiver and spawns a publish
task that loops `while let Ok(output) = receiver.recv()` and publishes each
frame to the out topic, breaking on publish failure (lines 198-224).  A
receiver that has fallen more than the capacity behind gets a Lagged error
from recv, which ends the while-let loop.

Frames of one shell epoch are identified by their production index.  The state
tracks how many frames the PTY reader has produced, the publish-task receiver
position, the indices already published in order, and whether the task has
terminated.  Events interleave frame production with publish-task steps. -/

inductive FanEvent where
  | produce
  | consume
  | consumePubFail
deriving DecidableEq, Repr

structure FanoutState where
  sent : Nat
  pos : Nat
  published : List Nat
  dead : Bool
deriving DecidableEq, Repr

/-- One step of the fan-out system with broadcast capacity `cap`.  A produce
step records one more frame from the PTY reader.  A consume step is one
round of the publish task: if a frame is pending and the receiver has not
lagged past the capacity it is received and published; a recv on an empty
backlog pends; a Lagged recv result ends the while-let loop.  The
consumePubFail variant is the same round when the broker publish call fails,
which breaks the loop without recording a publication. -/
def fanoutStep (cap : Nat) (s : FanoutState) : FanEvent → FanoutState
  | .produce => { s with sent := s.sent + 1 }
  | .consume =>
    if s.dead then s
    else if s.sent ≤ s.pos then s
    else if cap < s.sent - s.pos then { s with dead := true }
    else { s with pos := s.pos + 1, published := s.published ++ [s.pos] }
  | .consumePubFail =>
    if s.dead then s
    else if s.sent ≤ s.pos then s
    else if cap < s.sent - s.pos then { s with dead := true }
    else { s with pos := s.pos + 1, dead := true }

/-- Run the fan-out system over a schedule of events. -/
def fanoutRun (cap : Nat) (s : FanoutState) (evs : List FanEvent) : FanoutState :=
  List.foldl (fanoutStep cap) s evs

/-- Initial state for a connection whose receiver subscribes after `n` frames
of the epoch have already been produced: a fresh broadcast receiver sees only
frames sent after the subscription. -/
def fanoutInit (n : Nat) : FanoutState :=
  { sent := n, pos := n, published := [], dead := false }

/- ### PTY read loop (agent, src/agent/src/main.rs lines 77-101)

The reader worker loops over blocking reads.  Ok(0) emits the
shell_restarting status token and breaks; a read error emits
shell_error_restarting and breaks; Ok(n) with n positive forwards exactly the
n bytes read to the output fan-out and continues. -/

inductive ReadResult where
  | ok (bytes : List Nat)
  | err
deriving DecidableEq, Repr

structure ReadLoopResult where
  frames : List (List Nat)
  statuses : List String
deriving DecidableEq, Repr

/-- The reader worker, as a function of the sequence of results its blocking
reads return.  An empty trace models a worker still blocked in read. -/
def readLoop : List ReadResult → ReadLoopResult
  | [] => { frames := [], statuses := [] }
  | .ok [] :: _ => { frames := [], statuses := ["shell_restarting"] }
  | .ok bytes :: rest =>
    let r := readLoop rest
    { r with frames := bytes :: r.frames }
  | .err :: _ => { frames := [], statuses := ["shell_error_restarting"] }

/- ### PTY writer worker (agent, src/agent/src/main.rs lines 105-131)

The writer worker dequeues input chunks and, for each, calls write_all then
flush on the PTY writer.  A write_all failure breaks the loop; a flush
failure is only logged and the loop continues.  The queue closing ends the
loop. -/

inductive WriteOutcome where
  | ok
  | flushFail
  | wErr
deriving DecidableEq, Repr

structure PtyWrite where
  chunk : List Nat
  res : WriteOutcome
deriving DecidableEq, Repr

inductive WriterAction where
  | wrote (bytes : List Nat)
  | flushed
deriving DecidableEq, Repr

/-- The writer worker over the sequence of dequeued chunks, each tagged with
the outcome of its write_all and flush calls.  Returns the PTY write and
flush actions performed, in order. -/
def writerLoop : List PtyWrite → List WriterAction
  | [] => []
  | w :: rest =>
    match w.res with
    | .ok => .wrote w.chunk :: .flushed :: writerLoop rest
    | .flushFail => .wrote w.chunk :: writerLoop rest
    | .wErr => []

/-- The two PTY workers of one shell epoch run on independent OS threads and
share no state that feeds back into each other: the pair of their results is
the pair of the two independent loop functions. -/
def epochWorkers (reads : List ReadResult) (writes : List PtyWrite) :
    ReadLoopResult × List WriterAction :=
  (readLoop reads, writerLoop writes)

/- ### Key encoder (controller, src/controller/src/main.rs lines 141-242)

Crossterm key events are modelled by the key code and the modifier set
actually distinguished by the match arms: the patterns for Char bind exactly
the CONTROL, NONE and SHIFT modifier values, every other modifier combination
falls through to the catch-all arm.  The non-Char arms ignore modifiers. -/

inductive KeyModifier where
  | plain
  | shiftMod
  | controlMod
  | otherMod
deriving DecidableEq, Repr

inductive KeyCode where
  | char (c : Char)
  | enter
  | backspace
  | tab
  | up
  | down
  | right
  | left
  | home
  | endKey
  | pageUp
  | pageDown
  | del
  | insert
  | f (n : Nat)
  | otherKey
deriving DecidableEq, Repr

/-- The UTF-8 encoding of a Unicode code point, as produced by the Rust
char encode_utf8 method. -/
def utf8EncodeChar (c : Nat) : List Nat :=
  if c < 0x80 then [c]
  else if c < 0x800 then [0xC0 + c / 64, 0x80 + c % 64]
  else if c < 0x10000 then [0xE0 + c / 4096, 0x80 + c / 64 % 64, 0x80 + c % 64]
  else [0xF0 + c / 262144, 0x80 + c / 4096 % 64, 0x80 + c / 64 % 64, 0x80 + c % 64]

/-- The byte sequences published for each function key by the F(n) match arm;
none models the continue arm for other function keys. -/
def fKeySeq (n : Nat) : Option (List Nat) :=
  match n with
  | 1 => some [0x1B, 0x4F, 0x50]
  | 2 => some [0x1B, 0x4F, 0x51]
  | 3 => some [0x1B, 0x4F, 0x52]
  | 4 => some [0x1B, 0x4F, 0x53]
  | 5 => some [0x1B, 0x5B, 0x31, 0x35, 0x7E]
  | 6 => some [0x1B, 0x5B, 0x31, 0x37, 0x7E]
  | 7 => some [0x1B, 0x5B, 0x31, 0x38, 0x7E]
  | 8 => some [0x1B, 0x5B, 0x31, 0x39, 0x7E]
  | 9 => some [0x1B, 0x5B, 0x32, 0x30, 0x7E]
  | 10 => some [0x1B, 0x5B, 0x32, 0x31, 0x7E]
  | 11 => some [0x1B, 0x5B, 0x32, 0x33, 0x7E]
  | 12 => some [0x1B, 0x5B, 0x32, 0x34, 0x7E]
  | _ => none

/-- Bytes sent to the in topic for one key event, following the match arms of
the controller main loop in source order: the Ctrl+Q arm breaks the loop and
sends nothing, Ctrl+C and Ctrl+Z send single control bytes, a Char with
exactly the NONE or SHIFT modifiers sends its UTF-8 encoding, the special
keys send their escape sequences regardless of modifiers, and the catch-all
arm sends nothing. -/
def encodeKey (code : KeyCode) (m : KeyModifier) : Option (List Nat) :=
  match code, m with
  | .char c, .controlMod =>
    if c = 'q' then none
    else if c = 'c' then some [3]
    else if c = 'z' then some [26]
    else none
  | .char c, .plain => some (utf8EncodeChar c.toNat)
  | .char c, .shiftMod => some (utf8EncodeChar c.toNat)
  | .char _, .otherMod => none
  | .enter, _ => some [13]
  | .backspace, _ => some [127]
  | .tab, _ => some [9]
  | .up, _ => some [0x1B, 0x5B, 0x41]
  | .down, _ => some [0x1B, 0x5B, 0x42]
  | .right, _ => some [0x1B, 0x5B, 0x43]
  | .left, _ => some [0x1B, 0x5B, 0x44]
  | .home, _ => some [0x1B, 0x5B, 0x48]
  | .endKey, _ => some [0x1B, 0x5B, 0x46]
  | .pageUp, _ => some [0x1B, 0x5B, 0x35, 0x7E]
  | .pageDown, _ => some [0x1B, 0x5B, 0x36, 0x7E]
  | .del, _ => some [0x1B, 0x5B, 0x33, 0x7E]
  | .insert, _ => some [0x1B, 0x5B, 0x32, 0x7E]
  | .f n, _ => fKeySeq n
  | .otherKey, _ => none

/-- Modelled from the spec: the key table of section 4.6, row by row.
Printable characters, unmodified or shift-modified, map to their UTF-8
encoding; Ctrl+C to 0x03; Ctrl+Z to 0x1A; Ctrl+Q to nothing; Enter to
carriage return; Backspace to 0x7F; Tab to horizontal tab; the arrows to
ESC bracket A through D; Home and End to ESC bracket H and F; PageUp and
PageDown to ESC bracket 5 tilde and 6 tilde; Delete and Insert to ESC
bracket 3 tilde and 2 tilde; F1 to F4 to ESC O P through S; F5 to F12 to the
standard numeric codes ESC bracket 15 to 24 tilde; any other key to
nothing. -/
def specKeyBytes (code : KeyCode) (m : KeyModifier) : Option (List Nat) :=
  match code, m with
  | .char c, .plain => some (utf8EncodeChar c.toNat)
  | .char c, .shiftMod => some (utf8EncodeChar c.toNat)
  | .char c, .controlMod =>
    if c = 'c' then some [0x03]
    else if c = 'z' then some [0x1A]
    else none
  | .char _, .otherMod => none
  | .enter, _ => some [0x0D]
  | .backspace, _ => some [0x7F]
  | .tab, _ => some [0x09]
  | .up, _ => some [0x1B, 0x5B, 0x41]
  | .down, _ => some [0x1B, 0x5B, 0x42]
  | .right, _ => some [0x1B, 0x5B, 0x43]
  | .left, _ => some [0x1B, 0x5B, 0x44]
  | .home, _ => some [0x1B, 0x5B, 0x48]
  | .endKey, _ => some [0x1B, 0x5B, 0x46]
  | .pageUp, _ => some [0x1B, 0x5B, 0x35, 0x7E]
  | .pageDown, _ => some [0x1B, 0x5B, 0x36, 0x7E]
  | .del, _ => some [0x1B, 0x5B, 0x33, 0x7E]
  | .insert, _ => some [0x1B, 0x5B, 0x32, 0x7E]
  | .f n, _ =>
    if n = 1 then some [0x1B, 0x4F, 0x50]
    else if n = 2 then some [0x1B, 0x4F, 0x51]
    else if n = 3 then some [0x1B, 0x4F, 0x52]
    else if n = 4 then some [0x1B, 0x4F, 0x53]
    else if n = 5 then some [0x1B, 0x5B, 0x31, 0x35, 0x7E]
    else if n = 6 then some [0x1B, 0x5B, 0x31, 0x37, 0x7E]
    else if n = 7 then some [0x1B, 0x5B, 0x31, 0x38, 0x7E]
    else if n = 8 then some [0x1B, 0x5B, 0x31, 0x39, 0x7E]
    else if n = 9 then some [0x1B, 0x5B, 0x32, 0x30, 0x7E]
    else if n = 10 then some [0x1B, 0x5B, 0x32, 0x31, 0x7E]
    else if n = 11 then some [0x1B, 0x5B, 0x32, 0x33, 0x7E]
    else if n = 12 then some [0x1B, 0x5B, 0x32, 0x34, 0x7E]
    else none
  | .otherKey, _ => none

/- ### Controller interactive loop (src/controller/src/main.rs lines 141-246)

Each iteration first checks the exit-signal channel, then polls for a local
event.  A Ctrl+Q key breaks the loop; other keys send their encoding, if any,
to the input task.  After the loop, disable_raw_mode restores the local
terminal.  A trace element is one loop iteration observation. -/

inductive LoopEvent where
  | exitSignal
  | key (code : KeyCode) (m : KeyModifier)
  | noEvent
deriving DecidableEq, Repr

structure ControllerResult where
  sent : List (List Nat)
  rawModeRestored : Bool
deriving DecidableEq, Repr

/-- The controller interactive loop over a trace of iteration observations.
An exhausted trace models a loop still running: raw mode has not been
restored.  Termination through the exit signal or Ctrl+Q falls through to
disable_raw_mode. -/
def controllerLoop : List LoopEvent → ControllerResult
  | [] => { sent := [], rawModeRestored := false }
  | .exitSignal :: _ => { sent := [], rawModeRestored := true }
  | .key code m :: rest =>
    if code = .char 'q' ∧ m = .controlMod then
      { sent := [], rawModeRestored := true }
    else
      let r := controllerLoop rest
      { r with sent := (match encodeKey code m with
                        | some bs => [bs]
                        | none => []) ++ r.sent }
  | .noEvent :: rest => controllerLoop rest

/- ### UTF-8 lossy decoding (controller out-topic handler)

The controller renders an out-topic payload with print of
String from_utf8_lossy (src/controller/src/main.rs lines 82-84), which copies
well-formed UTF-8 byte sequences unchanged and replaces each maximal subpart
of an ill-formed sequence with the three-byte encoding EF BF BD of the
replacement character U+FFFD.  The stepper below classifies the head of a
byte list per the UTF-8 well-formedness table used by the Rust standard
library validator: valid k means the first k bytes encode one scalar value,
invalid k means the head is ill-formed and its maximal subpart has k
bytes. -/

/-- Continuation byte test. -/
def isCont (b : Nat) : Bool :=
  decide (0x80 ≤ b) && decide (b ≤ 0xBF)

inductive Utf8Head where
  | valid (k : Nat)
  | invalid (k : Nat)
deriving DecidableEq, Repr

/-- Classify the head of a byte list per the UTF-8 well-formedness table. -/
def utf8Head : List Nat → Utf8Head
  | [] => .invalid 1
  | b :: rest =>
    if b < 0x80 then .valid 1
    else if b < 0xC2 then .invalid 1
    else if b ≤ 0xDF then
      match rest with
      | b1 :: _ => if isCont b1 then .valid 2 else .invalid 1
      | [] => .invalid 1
    else if b ≤ 0xEF then
      let lo := if b = 0xE0 then 0xA0 else 0x80
      let hi := if b = 0xED then 0x9F else 0xBF
      match rest with
      | b1 :: rest1 =>
        if lo ≤ b1 ∧ b1 ≤ hi then
          match rest1 with
          | b2 :: _ => if isCont b2 then .valid 3 else .invalid 2
          | [] => .invalid 2
        else .invalid 1
      | [] => .invalid 1
    else if b ≤ 0xF4 then
      let lo := if b = 0xF0 then 0x90 else 0x80
      let hi := if b = 0xF4 then 0x8F else 0xBF
      match rest with
      | b1 :: rest1 =>
        if lo ≤ b1 ∧ b1 ≤ hi then
          match rest1 with
          | b2 :: rest2 =>
            if isCont b2 then
              match rest2 with
              | b3 :: _ => if isCont b3 then .valid 4 else .invalid 3
              | [] => .invalid 3
            else .invalid 2
          | [] => .invalid 2
        else .invalid 1
      | [] => .invalid 1
    else .invalid 1

/-- The UTF-8 encoding of the replacement character U+FFFD. -/
def replacementBytes : List Nat := [0xEF, 0xBF, 0xBD]

/-- Worker for utf8Lossy.  The stepper always consumes at least one byte, so
a fuel equal to the input length is enough; the fuel only makes the recursion
structural. -/
def utf8LossyGo : Nat → List Nat → List Nat
  | 0, _ => []
  | _ + 1, [] => []
  | fuel + 1, b :: rest =>
    match utf8Head (b :: rest) with
    | .valid k => (b :: rest).take k ++ utf8LossyGo fuel (rest.drop (k - 1))
    | .invalid k => replacementBytes ++ utf8LossyGo fuel (rest.drop (k - 1))

/-- Byte-level effect of Rust String from_utf8_lossy: well-formed scalar
encodings are copied, each maximal subpart of an ill-formed sequence becomes
the replacement character bytes. -/
def utf8Lossy (l : List Nat) : List Nat := utf8LossyGo l.length l

/-- Worker for validUtf8, fueled the same way. -/
def validUtf8Go : Nat → List Nat → Bool
  | 0, [] => true
  | 0, _ :: _ => false
  | _ + 1, [] => true
  | fuel + 1, b :: rest =>
    match utf8Head (b :: rest) with
    | .valid k => validUtf8Go fuel (rest.drop (k - 1))
    | .invalid _ => false

/-- Whether a byte list is well-formed UTF-8, by the same stepper. -/
def validUtf8 (l : List Nat) : Bool := validUtf8Go l.length l

/-- The controller handling of one out-topic payload: the bytes actually
written to local standard output, and whether stdout was flushed right
after. -/
def handleOutPayload (payload : List Nat) : List Nat × Bool :=
  (utf8Lossy payload, true)

/- ### Session orchestrator (agent, src/agent/src/main.rs lines 43-156)

The transport loop runs inside tokio spawn (lines 133-148).  The tokio
runtime confines a panic inside a spawned task to that task: the unwind is
caught by the runtime and surfaced only through the join handle.  The
orchestrator in main never awaits that handle: after the child shell exits
it calls abort on the task, sleeps the fixed 2-second settle delay and
starts a new epoch.  The agent process has no exit path. -/

/-- How the spawned transport task stands when the child shell exits: still
running, or already ended by an uncaught panic inside it, such as the expect
on a failed OS resize. -/
inductive TransportTaskEnd where
  | stillRunning
  | panicked
deriving DecidableEq, Repr

structure OrchestratorStep where
  settleDelay : Nat
  restartsEpoch : Bool
  processExits : Bool
deriving DecidableEq, Repr

/-- What the orchestrator does once the child shell exits, as a function of
how the transport task stands at that moment.  It aborts the task without
ever awaiting its join handle, so both branches are the same: sleep 2
seconds, restart the epoch, and the process continues either way. -/
def orchestratorAfterChildExit (taskEnd : TransportTaskEnd) : OrchestratorStep :=
  match taskEnd with
  | .stillRunning => { settleDelay := 2, restartsEpoch := true, processExits := false }
  | .panicked => { settleDelay := 2, restartsEpoch := true, processExits := false }

/- ### Shared helper definitions for the proofs -/

/-- Invariant tying a fan-out state to its subscription point n: the
published indices form a contiguous range starting at n that never runs past
the receiver position, the range ends exactly at the position while the
publish task is alive, and the position never passes the producer. -/
def FanoutInv (n : Nat) (s : FanoutState) : Prop :=
  (∃ k, s.published = List.range' n k ∧ n + k ≤ s.pos ∧
    (s.dead = false → n + k = s.pos)) ∧ n ≤ s.pos ∧ s.pos ≤ s.sent

/- ### Theorems -/

/-- A payload with a missing field, or with a field outside the u16 range,
fails serde deserialization. -/
theorem parseResize_eq_none (rowsField colsField : Option Int)
    (h : rowsField = none ∨ colsField = none ∨
         (∃ r, rowsField = some r ∧ (r < 0 ∨ 65535 < r)) ∨
         (∃ c, colsField = some c ∧ (c < 0 ∨ 65535 < c))) :
    parseResize rowsField colsField = none := by
  cases rowsField with
  | none => rfl
  | some r =>
    cases colsField with
    | none => rfl
    | some c =>
      simp only [parseResize, ite_eq_right_iff]
      intro hc
      rcases h with h | h | ⟨r', hr', hb⟩ | ⟨c', hc', hb⟩ <;> simp_all <;> omega

/-- Claim C2, corrected part: a resize payload with a missing field, or with
a field that is negative or above the u16 maximum, leaves the PTY dimensions
unchanged and emits no status token.  (The original claim also covered a
zero field; the counterexample below shows zero parses and is applied.) -/
theorem c2_resize_rejection (cur : PtySize) (rowsField colsField : Option Int)
    (osOk : Bool)
    (h : rowsField = none ∨ colsField = none ∨
         (∃ r, rowsField = some r ∧ (r < 0 ∨ 65535 < r)) ∨
         (∃ c, colsField = some c ∧ (c < 0 ∨ 65535 < c))) :
    handleResizePayload cur rowsField colsField osOk = (.ignored cur, []) := by
  simp [handleResizePayload, parseResize_eq_none rowsField colsField h]

/-- Witness for claim C2: a payload lacking the rows field is discarded. -/
theorem c2_resize_rejection_witness :
    handleResizePayload ⟨24, 80, 0, 0⟩ none (some 80) true =
      (.ignored ⟨24, 80, 0, 0⟩, []) :=
  c2_resize_rejection ⟨24, 80, 0, 0⟩ none (some 80) true (Or.inl rfl)

/-- Counterexample to claim C2 as stated: the payload with rows zero and cols
eighty deserializes (zero is a valid u16) and the resize is applied, changing
the PTY dimensions; the claim asserted the dimensions would be left
unchanged. -/
theorem c2_zero_resize_counterexample :
    handleResizePayload ⟨24, 80, 0, 0⟩ (some 0) (some 80) true =
      (.resized ⟨0, 80, 0, 0⟩, []) ∧
    ResizeOutcome.resized ⟨0, 80, 0, 0⟩ ≠ .ignored ⟨24, 80, 0, 0⟩ := by
  decide

/-- Doubling with cap 30 commutes with one more doubling step. -/
theorem min_double_cap (a : Nat) : min (min a 30 * 2) 30 = min (a * 2) 30 := by
  rcases Nat.le_total a 30 with h | h
  · rw [Nat.min_eq_left h]
  · rw [Nat.min_eq_right h, Nat.min_eq_right (by omega), Nat.min_eq_right (by omega)]

/-- Closed form of the delays over a run of consecutive subscribe failures
starting from a delay already equal to the capped k-th power of two. -/
theorem delaysFrom_subFail_pow (n k : Nat) :
    delaysFrom (min (2 ^ k) 30) (List.replicate n .subFail) =
      (List.range' k n).map fun j => min (2 ^ j) 30 := by
  induction n generalizing k with
  | zero => simp [delaysFrom]
  | succ m ih =>
    rw [List.replicate_succ]
    simp only [delaysFrom, connectStep]
    rw [min_double_cap, ← pow_succ, ih (k + 1), List.range'_succ]
    simp

/-- Claim C3: from a fresh epoch, n consecutive connection failures sleep the
capped doubling sequence, whose first seven values are 1, 2, 4, 8, 16, 30,
30; and after any successful subscribe the delay applied for the next failure
is 1 second (the following delay state being 2). -/
theorem c3_backoff_sequence (n : Nat) :
    delaysFrom 1 (List.replicate n .subFail) =
      ((List.range n).map fun k => min (2 ^ k) 30) ∧
    delaysFrom 1 (List.replicate 7 .subFail) = [1, 2, 4, 8, 16, 30, 30] ∧
    ∀ (d : Nat) (rs : List AttemptResult),
      delaysFrom d (.connected :: rs) = 1 :: delaysFrom 2 rs := by
  refine ⟨?_, by decide, fun d rs => ?_⟩
  · have h := delaysFrom_subFail_pow n 0
    simpa [List.range_eq_range'] using h
  · simp [delaysFrom, connectStep]

/-- Counterexample to claim C5 as stated: after two consecutive transport
errors the controller delays differ from the agent backoff machine (1, 1
versus 1, 2), and a failed subscribe panics the controller instead of being
retried. -/
theorem c5_backoff_divergence_counterexample :
    controllerDelays 2 ≠ delaysFrom 1 [.subFail, .subFail] ∧
    controllerSubscribe false true = .panicked := by
  decide

/-- Claim C5, corrected: the controller does not implement the agent backoff
machine.  Transport errors are retried at a fixed one-second delay, which for
any run of at least two consecutive errors differs from the agent delays,
and any subscribe failure panics the controller. -/
theorem c5_controller_fixed_delay (n : Nat) (h : 2 ≤ n) :
    controllerDelays n = List.replicate n 1 ∧
    controllerDelays n ≠ delaysFrom 1 (List.replicate n .subFail) ∧
    ∀ statusOk, controllerSubscribe false statusOk = .panicked := by
  refine ⟨rfl, ?_, fun _ => rfl⟩
  obtain ⟨m, rfl⟩ : ∃ m, n = m + 2 := ⟨n - 2, by omega⟩
  intro hEq
  rw [show m + 2 = (m + 1) + 1 from rfl, List.replicate_succ, List.replicate_succ] at hEq
  simp [delaysFrom, connectStep, controllerDelays, controllerErrorDelay,
    List.replicate_succ] at hEq

/-- Witness for claim C5 at two transport errors. -/
theorem c5_controller_fixed_delay_witness :
    controllerDelays 2 = List.replicate 2 1 ∧
    controllerDelays 2 ≠ delaysFrom 1 (List.replicate 2 .subFail) ∧
    ∀ statusOk, controllerSubscribe false statusOk = .panicked :=
  c5_controller_fixed_delay 2 (by decide)

/-- Claim C6: while raw input mode is active, the key encoder of the
controller main loop emits, for every key event, exactly the byte sequence of
the spec key table: characters as UTF-8, Ctrl+C as 0x03, Ctrl+Z as 0x1A,
Enter as carriage return, Backspace as 0x7F, Tab as horizontal tab, arrows
and navigation keys as their ANSI escape sequences, F1 to F4 as ESC O P to S,
F5 to F12 as the standard numeric codes, and every other key nothing. -/
theorem c6_key_encoder_matches_table (code : KeyCode) (m : KeyModifier) :
    encodeKey code m = specKeyBytes code m := by
  cases code with
  | char c =>
    cases m with
    | plain => rfl
    | shiftMod => rfl
    | otherMod => rfl
    | controlMod =>
      by_cases hq : c = 'q'
      · subst hq; decide
      · by_cases hc : c = 'c'
        · subst hc; decide
        · by_cases hz : c = 'z'
          · subst hz; decide
          · simp [encodeKey, specKeyBytes, hq, hc, hz]
  | f n =>
    cases m <;>
      (rcases n with _ | _ | _ | _ | _ | _ | _ | _ | _ | _ | _ | _ | _ | k <;> rfl)
  | enter => cases m <;> rfl
  | backspace => cases m <;> rfl
  | tab => cases m <;> rfl
  | up => cases m <;> rfl
  | down => cases m <;> rfl
  | right => cases m <;> rfl
  | left => cases m <;> rfl
  | home => cases m <;> rfl
  | endKey => cases m <;> rfl
  | pageUp => cases m <;> rfl
  | pageDown => cases m <;> rfl
  | del => cases m <;> rfl
  | insert => cases m <;> rfl
  | otherKey => cases m <;> rfl

/-- Claim C7: one iteration of the PTY read loop emits the shell_restarting
token and terminates on a zero-byte read, emits shell_error_restarting and
terminates on a read error, and on n positive bytes forwards exactly those
bytes as the next frame and continues. -/
theorem c7_read_loop_behavior (bytes : List Nat) (rest : List ReadResult)
    (h : bytes ≠ []) :
    readLoop (.ok [] :: rest) = { frames := [], statuses := ["shell_restarting"] } ∧
    readLoop (.err :: rest) = { frames := [], statuses := ["shell_error_restarting"] } ∧
    readLoop (.ok bytes :: rest) =
      { frames := bytes :: (readLoop rest).frames,
        statuses := (readLoop rest).statuses } := by
  refine ⟨rfl, rfl, ?_⟩
  match bytes, h with
  | b :: bs, _ => rfl

/-- Witness for claim C7 on a one-byte read followed by one more read. -/
theorem c7_read_loop_behavior_witness :
    readLoop [.ok [], .ok [104]] = { frames := [], statuses := ["shell_restarting"] } ∧
    readLoop [.err, .ok [104]] = { frames := [], statuses := ["shell_error_restarting"] } ∧
    readLoop [.ok [104], .ok [104]] =
      { frames := [104] :: (readLoop [.ok [104]]).frames,
        statuses := (readLoop [.ok [104]]).statuses } :=
  c7_read_loop_behavior [104] [.ok [104]] (by decide)

/-- Claim C8: the writer worker writes each dequeued chunk fully and then
flushes; a write failure ends the writer worker with no further writes; and
the read loop result is a function of the read trace alone, unaffected by
whatever happens on the write side. -/
theorem c8_writer_worker (w : PtyWrite) (rest : List PtyWrite)
    (reads : List ReadResult) (writes writes' : List PtyWrite) :
    (w.res = .ok → writerLoop (w :: rest) = .wrote w.chunk :: .flushed :: writerLoop rest) ∧
    (w.res = .wErr → writerLoop (w :: rest) = []) ∧
    (epochWorkers reads writes).1 = (epochWorkers reads writes').1 := by
  refine ⟨fun h => ?_, fun h => ?_, rfl⟩
  · simp [writerLoop, h]
  · simp [writerLoop, h]

/-- Witness for claim C8: a successful chunk is written then flushed, and a
failed write ends the worker before later chunks. -/
theorem c8_writer_worker_witness :
    writerLoop [⟨[104], .ok⟩] = [.wrote [104], .flushed] ∧
    writerLoop [⟨[104], .wErr⟩, ⟨[105], .ok⟩] = [] := by
  constructor
  · simpa using (c8_writer_worker ⟨[104], .ok⟩ [] [] [] []).1 rfl
  · exact (c8_writer_worker ⟨[104], .wErr⟩ [⟨[105], .ok⟩] [] [] []).2.1 rfl

/-- Claim C9: a Ctrl+Q key event ends the controller interactive loop with no
bytes sent for that event and with the terminal raw mode restored, whatever
follows in the trace; and however a trace reaches the Ctrl+Q event, the loop
ends with raw mode restored. -/
theorem c9_ctrl_q_graceful_exit (rest : List LoopEvent) (evs : List LoopEvent) :
    controllerLoop (.key (.char 'q') .controlMod :: rest) =
      { sent := [], rawModeRestored := true } ∧
    (controllerLoop (evs ++ .key (.char 'q') .controlMod :: rest)).rawModeRestored = true := by
  have hq : controllerLoop (.key (.char 'q') .controlMod :: rest) =
      { sent := [], rawModeRestored := true } := by
    simp [controllerLoop]
  refine ⟨hq, ?_⟩
  induction evs with
  | nil => simp [hq]
  | cons e tail ih =>
    cases e with
    | exitSignal => simp [controllerLoop]
    | noEvent => simpa [controllerLoop] using ih
    | key code m =>
      simp only [List.cons_append, controllerLoop]
      split
      · rfl
      · simpa using ih

/-- Counterexample to claim C10 as stated: at the concrete payload rows 40
cols 120 with a failing OS resize call, the handler panics the transport task
through the expect call, yet the agent process does not abort: the
orchestrator step after the task panic still restarts the epoch and the
process does not exit. -/
theorem c10_task_panic_not_process_abort_counterexample :
    handleResizePayload ⟨24, 80, 0, 0⟩ (some 40) (some 120) false = (.panicked, []) ∧
    (orchestratorAfterChildExit .panicked).processExits = false ∧
    (orchestratorAfterChildExit .panicked).restartsEpoch = true := by
  decide

/-- Claim C10, corrected: a resize payload that deserializes successfully but
whose OS resize call fails drives the handler into the panic outcome of the
expect call, not into any recoverable outcome; but that panic is confined to
the spawned transport task: the orchestrator step is identical whether or not
the transport task panicked, restarting the epoch after the 2-second settle
delay with no process exit. -/
theorem c10_resize_failure_panics_task_only (cur : PtySize)
    (rowsField colsField : Option Int) (rd : TerminalResize)
    (h : parseResize rowsField colsField = some rd) :
    handleResizePayload cur rowsField colsField false = (.panicked, []) ∧
    ∀ taskEnd, orchestratorAfterChildExit taskEnd =
      { settleDelay := 2, restartsEpoch := true, processExits := false } := by
  constructor
  · simp [handleResizePayload, h]
  · intro taskEnd
    cases taskEnd <;> rfl

/-- Witness for claim C10 at a 40 by 120 resize with a failing OS call. -/
theorem c10_resize_failure_panics_task_only_witness :
    handleResizePayload ⟨24, 80, 0, 0⟩ (some 40) (some 120) false = (.panicked, []) ∧
    ∀ taskEnd, orchestratorAfterChildExit taskEnd =
      { settleDelay := 2, restartsEpoch := true, processExits := false } :=
  c10_resize_failure_panics_task_only ⟨24, 80, 0, 0⟩ (some 40) (some 120) ⟨40, 120⟩
    (by decide)

/-- The fan-out invariant is preserved by every step. -/
theorem fanoutStep_inv (cap n : Nat) (s : FanoutState) (ev : FanEvent)
    (h : FanoutInv n s) : FanoutInv n (fanoutStep cap s ev) := by
  obtain ⟨⟨k, hpub, hk, hlive⟩, hnp, hps⟩ := h
  cases ev with
  | produce =>
    exact ⟨⟨k, hpub, hk, hlive⟩, hnp, by simp [fanoutStep]; omega⟩
  | consume =>
    simp only [fanoutStep]
    split
    · exact ⟨⟨k, hpub, hk, hlive⟩, hnp, hps⟩
    · split
      · exact ⟨⟨k, hpub, hk, hlive⟩, hnp, hps⟩
      · split
        · exact ⟨⟨k, hpub, hk, by simp⟩, hnp, hps⟩
        · rename_i hdead hlt hlag
          have hkp : n + k = s.pos := hlive (by simpa using hdead)
          refine ⟨⟨k + 1, ?_, by simp; omega, by simp; omega⟩, by simp; omega, by simp; omega⟩
          simp only [hpub]
          rw [List.range'_concat]
          simp [hkp]
  | consumePubFail =>
    simp only [fanoutStep]
    split
    · exact ⟨⟨k, hpub, hk, hlive⟩, hnp, hps⟩
    · split
      · exact ⟨⟨k, hpub, hk, hlive⟩, hnp, hps⟩
      · split
        · exact ⟨⟨k, hpub, hk, by simp⟩, hnp, hps⟩
        · exact ⟨⟨k, hpub, by simp; omega, by simp⟩, by simp; omega, by simp; omega⟩

/-- The fan-out invariant is preserved by any schedule. -/
theorem fanoutRun_inv (cap n : Nat) (evs : List FanEvent) (s : FanoutState)
    (h : FanoutInv n s) : FanoutInv n (fanoutRun cap s evs) := by
  induction evs generalizing s with
  | nil => exact h
  | cons e tail ih => exact ih _ (fanoutStep_inv cap n s e h)

/-- Claim C1: for any interleaving of PTY frame production and publish-task
activity within one connection, the indices published on the out topic form
the contiguous range n, n+1, ... of length k starting at the subscription
point, every one a produced frame: publication is order preserving, and any
lost frames lie before the subscription or after the point where the publish
task stopped, never in the middle of the published run. -/
theorem c1_out_frames_contiguous (cap n : Nat) (evs : List FanEvent) :
    ∃ k, (fanoutRun cap (fanoutInit n) evs).published = List.range' n k ∧
      n + k ≤ (fanoutRun cap (fanoutInit n) evs).sent := by
  have h0 : FanoutInv n (fanoutInit n) :=
    ⟨⟨0, by simp [fanoutInit], by simp [fanoutInit], by simp [fanoutInit]⟩,
      by simp [fanoutInit], by simp [fanoutInit]⟩
  obtain ⟨⟨k, hpub, hk, _⟩, _, hps⟩ := fanoutRun_inv cap n evs (fanoutInit n) h0
  exact ⟨k, hpub, by omega⟩

/-- A well-formedness step never claims a valid sequence of length zero. -/
theorem utf8Head_valid_ge_one (l : List Nat) (k : Nat) (h : utf8Head l = .valid k) :
    1 ≤ k := by
  cases l with
  | nil => simp [utf8Head] at h
  | cons b rest =>
    simp only [utf8Head] at h
    repeat' split at h
    all_goals first
      | (injection h with h; omega)
      | exact absurd h (by simp)

/-- With enough fuel, lossy decoding of a well-formed byte list copies it. -/
theorem utf8LossyGo_of_valid (fuel : Nat) :
    ∀ l : List Nat, l.length ≤ fuel → validUtf8Go fuel l = true →
      utf8LossyGo fuel l = l := by
  induction fuel with
  | zero =>
    intro l hlen _
    have : l = [] := List.eq_nil_of_length_eq_zero (by omega)
    simp [this, utf8LossyGo]
  | succ f ih =>
    intro l hlen hval
    cases l with
    | nil => rfl
    | cons b rest =>
      cases hh : utf8Head (b :: rest) with
      | valid k =>
        have hval' : validUtf8Go f (rest.drop (k - 1)) = true := by
          simpa [validUtf8Go, hh] using hval
        have hstep : utf8LossyGo (f + 1) (b :: rest) =
            (b :: rest).take k ++ utf8LossyGo f (rest.drop (k - 1)) := by
          simp [utf8LossyGo, hh]
        have hk1 : 1 ≤ k := utf8Head_valid_ge_one _ _ hh
        have hlen' : (rest.drop (k - 1)).length ≤ f := by
          simp only [List.length_drop]
          simp only [List.length_cons] at hlen
          omega
        rw [hstep, ih _ hlen' hval']
        obtain ⟨k', rfl⟩ : ∃ k', k = k' + 1 := ⟨k - 1, by omega⟩
        simp only [List.take_succ_cons, Nat.add_sub_cancel]
        simp [List.take_append_drop]
      | invalid k =>
        have : False := by simp [validUtf8Go, hh] at hval
        exact this.elim

/-- Lossy decoding is the identity on well-formed UTF-8. -/
theorem utf8Lossy_of_valid (l : List Nat) (h : validUtf8 l = true) :
    utf8Lossy l = l :=
  utf8LossyGo_of_valid l.length l le_rfl h

/-- Counterexample to claim C4 as stated: the one-byte payload 0xFF is not
well-formed UTF-8, and the controller writes the three replacement-character
bytes EF BF BD to stdout instead of the payload byte. -/
theorem c4_lossy_counterexample :
    handleOutPayload [0xFF] = ([0xEF, 0xBF, 0xBD], true) ∧
    ([0xEF, 0xBF, 0xBD] : List Nat) ≠ [0xFF] := by
  decide

/-- Claim C4, corrected: an out-topic payload that is well-formed UTF-8 is
written to local stdout byte for byte unchanged, and stdout is flushed right
after the payload is written. -/
theorem c4_valid_payload_written_unchanged (payload : List Nat)
    (h : validUtf8 payload = true) :
    handleOutPayload payload = (payload, true) := by
  simp [handleOutPayload, utf8Lossy_of_valid payload h]

/-- Witness for claim C4 on the ASCII payload h i. -/
theorem c4_valid_payload_written_unchanged_witness :
    handleOutPayload [104, 105] = ([104, 105], true) :=
  c4_valid_payload_written_unchanged [104, 105] (by decide)
